import Mathlib

/-!
Shallow embedding of the NeuroSync backend scoring and planning pipeline
(backend/crisis_detector.py, backend/rag_agent.py, backend/spotify_service.py)
together with theorems settling the behavioural claims about it.

Modelling conventions:
* Python text is `List Char`; `text.lower()` is `List.map Char.toLower`;
  the Python substring test `kw in text` is the contiguous-sublist
  predicate `kw <:+: text` (decidable, hence executable).
* Python floats are `ℚ`: every number the scorer manipulates is an exact
  multiple of a small decimal step, so exact rational arithmetic is the
  intended reading of the code.
* Python `round(x, 2)` is round-half-to-even on `ℚ`, scaled by 100.
* Calls to external collaborators (the sklearn vectorizer attached to a
  built index, the generative-model client plus JSON decoding, the music
  provider HTTP endpoints) are modelled as explicit data at the call
  boundary, exactly as wide as the repository code observes them.
-/

namespace NeuroSync

/-! ## Rounding: Python `round(x, 2)` -/

/-- Round a rational to the nearest integer, ties to the even integer
(Python `round` semantics). -/
def roundHalfEven (x : ℚ) : ℤ :=
  if x - ⌊x⌋ < 1/2 then ⌊x⌋
  else if 1/2 < x - ⌊x⌋ then ⌊x⌋ + 1
  else if ⌊x⌋ % 2 = 0 then ⌊x⌋ else ⌊x⌋ + 1

/-- Python `round(x, 2)`. -/
def round2 (x : ℚ) : ℚ := (roundHalfEven (x * 100) : ℚ) / 100

lemma roundHalfEven_intCast (n : ℤ) : roundHalfEven (n : ℚ) = n := by
  simp [roundHalfEven]

lemma floor_le_roundHalfEven (x : ℚ) : ⌊x⌋ ≤ roundHalfEven x := by
  unfold roundHalfEven; split_ifs <;> omega

lemma roundHalfEven_le_floor_add_one (x : ℚ) : roundHalfEven x ≤ ⌊x⌋ + 1 := by
  unfold roundHalfEven; split_ifs <;> omega

lemma abs_roundHalfEven_sub_le (x : ℚ) : |(roundHalfEven x : ℚ) - x| ≤ 1/2 := by
  have h1 := Int.floor_le x
  have h2 := Int.lt_floor_add_one x
  unfold roundHalfEven
  split_ifs with a b c <;> rw [abs_le] <;> constructor <;> push_cast <;> linarith

lemma roundHalfEven_mono {x y : ℚ} (h : x ≤ y) : roundHalfEven x ≤ roundHalfEven y := by
  rcases le_or_lt (⌊x⌋ + 1) ⌊y⌋ with hf | hf
  · calc roundHalfEven x ≤ ⌊x⌋ + 1 := roundHalfEven_le_floor_add_one x
      _ ≤ ⌊y⌋ := hf
      _ ≤ roundHalfEven y := floor_le_roundHalfEven y
  · have hfe : ⌊x⌋ = ⌊y⌋ := le_antisymm (Int.floor_le_floor h) (by omega)
    have hr : x - (⌊y⌋ : ℚ) ≤ y - (⌊y⌋ : ℚ) := by linarith
    unfold roundHalfEven
    rw [hfe]
    split_ifs <;> first | omega | (exfalso; linarith)

lemma round2_mono {x y : ℚ} (h : x ≤ y) : round2 x ≤ round2 y := by
  unfold round2
  have hm : roundHalfEven (x * 100) ≤ roundHalfEven (y * 100) :=
    roundHalfEven_mono (by linarith)
  have : ((roundHalfEven (x * 100) : ℚ)) ≤ ((roundHalfEven (y * 100) : ℚ)) := by
    exact_mod_cast hm
  linarith

lemma abs_round2_sub_le (x : ℚ) : |round2 x - x| ≤ 1/200 := by
  unfold round2
  have h : (roundHalfEven (x * 100) : ℚ) / 100 - x
      = ((roundHalfEven (x * 100) : ℚ) - x * 100) / 100 := by ring
  rw [h, abs_div, abs_of_pos (by norm_num : (0:ℚ) < 100)]
  have := abs_roundHalfEven_sub_le (x * 100)
  linarith

/-- `round2` is the identity on multiples of `1/20` (all crisis risk scores). -/
lemma round2_int_div_twenty (z : ℤ) : round2 ((z : ℚ) / 20) = (z : ℚ) / 20 := by
  unfold round2
  have h : ((z : ℚ) / 20) * 100 = ((5 * z : ℤ) : ℚ) := by push_cast; ring
  rw [h, roundHalfEven_intCast]
  push_cast; ring

lemma round2_zero : round2 0 = 0 := by
  have := round2_int_div_twenty 0
  simpa using this

lemma round2_one : round2 1 = 1 := by
  have := round2_int_div_twenty 20
  norm_num at this
  simpa using this

lemma round2_le_one {x : ℚ} (h : x ≤ 1) : round2 x ≤ 1 := by
  have := round2_mono h
  rwa [round2_one] at this

/-! ## Lexical scorer (backend/crisis_detector.py, class CrisisDetector) -/

/-- String literal to character list. -/
def sl (s : String) : List Char := s.toList

/-- `text.lower()`. -/
def lowerStr (t : List Char) : List Char := t.map Char.toLower

/-- Python `kw in text` as a Bool (substring containment). -/
def subMem (kw text : List Char) : Bool := decide (kw <:+: text)

/-- crisis_detector.py lines 14-19: `self.severe_keywords`. -/
def severe_keywords : List (List Char) :=
  [sl "suicide", sl "suicidal", sl "kill myself", sl "end my life", sl "take my life",
   sl "want to die", sl "better off dead", sl "end it all", sl "no point living",
   sl "not worth living", sl "no reason to live", sl "don\x27t want to live",
   sl "plan to kill", sl "planning to die", sl "ready to die"]

/-- Lines 21-26: `self.high_risk_keywords`. -/
def high_risk_keywords : List (List Char) :=
  [sl "harm myself", sl "hurt myself", sl "self harm", sl "cut myself",
   sl "overdose", sl "can\x27t go on", sl "give up on life", sl "hopeless",
   sl "no way out", sl "trapped", sl "unbearable", sl "end the pain",
   sl "can\x27t take it anymore", sl "nothing matters", sl "everyone better off without me"]

/-- Lines 28-33: `self.moderate_risk_keywords`. -/
def moderate_risk_keywords : List (List Char) :=
  [sl "hate myself", sl "worthless", sl "failure", sl "burden",
   sl "can\x27t cope", sl "falling apart", sl "losing control",
   sl "don\x27t care anymore", sl "numb", sl "empty inside",
   sl "dark thoughts", sl "intrusive thoughts"]

/-- Lines 36-42: `self.anxiety_keywords`. -/
def anxiety_keywords : List (List Char) :=
  [sl "anxious", sl "anxiety", sl "worried", sl "nervous", sl "stressed",
   sl "overwhelmed", sl "panic", sl "panicking", sl "racing thoughts",
   sl "can\x27t breathe", sl "heart racing", sl "hyperventilating",
   sl "restless", sl "on edge", sl "tense", sl "jittery", sl "fear",
   sl "scared", sl "terrified", sl "dread", sl "catastrophizing"]

/-- Lines 45-51: `self.depression_keywords`. -/
def depression_keywords : List (List Char) :=
  [sl "depressed", sl "depression", sl "sad", sl "hopeless", sl "helpless",
   sl "empty", sl "numb", sl "no energy", sl "exhausted", sl "tired",
   sl "can\x27t sleep", sl "sleeping too much", sl "no appetite",
   sl "don\x27t enjoy", sl "no interest", sl "isolated", sl "alone",
   sl "abandoned", sl "worthless", sl "guilty"]

/-- Lines 54-59: `self.protective_phrases`. -/
def protective_phrases : List (List Char) :=
  [sl "getting help", sl "seeing therapist", sl "talking to doctor",
   sl "support system", sl "family support", sl "friends helping",
   sl "feeling better", sl "improving", sl "making progress",
   sl "hope", sl "looking forward", sl "trying"]

/-- Line 138: `intensity_modifiers` local to `detect_anxiety`. -/
def intensity_modifiers : List (List Char) :=
  [sl "very", sl "extremely", sl "really", sl "so", sl "unbearably", sl "constantly"]

/-- Line 77: `severe_matches = [kw for kw in self.severe_keywords if kw in text_lower]`. -/
def severe_matches (text : List Char) : List (List Char) :=
  severe_keywords.filter (fun kw => subMem kw (lowerStr text))

/-- Line 78. -/
def high_matches (text : List Char) : List (List Char) :=
  high_risk_keywords.filter (fun kw => subMem kw (lowerStr text))

/-- Line 79. -/
def moderate_matches (text : List Char) : List (List Char) :=
  moderate_risk_keywords.filter (fun kw => subMem kw (lowerStr text))

/-- Line 80. -/
def protective_matches (text : List Char) : List (List Char) :=
  protective_phrases.filter (fun kw => subMem kw (lowerStr text))

/-- Number of severe keywords present in the lower-cased text (claim-side count;
equal to `(severe_matches text).length`). -/
def cntSevere (text : List Char) : ℕ :=
  severe_keywords.countP (fun kw => subMem kw (lowerStr text))

/-- Number of high-risk keywords present. -/
def cntHigh (text : List Char) : ℕ :=
  high_risk_keywords.countP (fun kw => subMem kw (lowerStr text))

/-- Number of moderate-risk keywords present. -/
def cntModerate (text : List Char) : ℕ :=
  moderate_risk_keywords.countP (fun kw => subMem kw (lowerStr text))

/-- Number of protective phrases present. -/
def cntProtective (text : List Char) : ℕ :=
  protective_phrases.countP (fun kw => subMem kw (lowerStr text))

/-- Lines 83-87: the un-clamped risk score. -/
def riskRaw (text : List Char) : ℚ :=
  ((severe_matches text).length : ℚ) * 0.4
    + ((high_matches text).length : ℚ) * 0.25
    + ((moderate_matches text).length : ℚ) * 0.1
    - ((protective_matches text).length : ℚ) * 0.15

/-- Line 90: `risk_score = max(0.0, min(1.0, risk_score))`. -/
def riskClamped (text : List Char) : ℚ := max 0 (min 1 (riskRaw text))

/-- The severity enum of the result dictionary. -/
inductive Severity where
  | none | low | moderate | high | severe
deriving DecidableEq

/-- The documented order none < low < moderate < high < severe. -/
def sevRank : Severity → ℕ
  | Severity.none => 0
  | Severity.low => 1
  | Severity.moderate => 2
  | Severity.high => 3
  | Severity.severe => 4

/-- The dictionary returned by `CrisisDetector.detect_crisis` (lines 116-123). -/
structure ScoreResult where
  crisis_detected : Bool
  severity : Severity
  risk_score : ℚ
  matched_keywords : List (List Char)
  recommended_action : List Char
  protective_factors : Bool
deriving DecidableEq

/-- Lines 95-114: the severity / crisis-flag / action cascade, first match wins. -/
def decideSeverity (sev high mod : List (List Char)) (risk : ℚ) :
    Severity × Bool × List Char :=
  if sev ≠ [] then
    (Severity.severe, true,
      sl "IMMEDIATE: Contact emergency services (988/911) and notify all emergency contacts")
  else if high ≠ [] ∨ risk ≥ 0.6 then
    (Severity.high, true,
      sl "URGENT: Notify emergency contacts and encourage immediate professional help")
  else if mod ≠ [] ∨ risk ≥ 0.3 then
    (Severity.moderate, true,
      sl "MODERATE: Encourage reaching out to therapist or support person")
  else if risk > 0 then
    (Severity.low, false, sl "MONITOR: Provide extra support and wellness resources")
  else
    (Severity.none, false, sl "Standard wellness plan")

/-- `CrisisDetector.detect_crisis` (lines 61-123). -/
def detect_crisis (text : List Char) : ScoreResult :=
  let sm := severe_matches text
  let hm := high_matches text
  let mm := moderate_matches text
  let pm := protective_matches text
  let risk_score := riskClamped text
  let all_matches := sm ++ hm ++ mm
  let sca := decideSeverity sm hm mm risk_score
  { crisis_detected := sca.2.1
    severity := sca.1
    risk_score := round2 risk_score
    matched_keywords := all_matches.take 5
    recommended_action := sca.2.2
    protective_factors := !pm.isEmpty }

/-- Number of anxiety keywords present (line 135). -/
def cntAnx (text : List Char) : ℕ :=
  anxiety_keywords.countP (fun kw => subMem kw (lowerStr text))

/-- Number of intensity modifiers present (line 139). -/
def cntIntensity (text : List Char) : ℕ :=
  intensity_modifiers.countP (fun kw => subMem kw (lowerStr text))

/-- Number of depression keywords present (line 158). -/
def cntDep (text : List Char) : ℕ :=
  depression_keywords.countP (fun kw => subMem kw (lowerStr text))

/-- Lines 142-147: the anxiety score as a function of the two match counts. -/
def anxietyFromCounts (matchCount modifier_count : ℕ) : ℚ :=
  round2 (min (min ((matchCount : ℚ) / 8) 0.8 + min ((modifier_count : ℚ) / 10) 0.2) 1)

/-- `CrisisDetector.detect_anxiety` (lines 125-147). -/
def detect_anxiety (text : List Char) : ℚ :=
  anxietyFromCounts (cntAnx text) (cntIntensity text)

/-- Lines 161-163: the depression score as a function of the match count. -/
def depressionFromCount (matchCount : ℕ) : ℚ :=
  round2 (min ((matchCount : ℚ) / 10) 1)

/-- `CrisisDetector.detect_depression` (lines 149-163). -/
def detect_depression (text : List Char) : ℚ :=
  depressionFromCount (cntDep text)

/-! ### Bridging lemmas for the scorer -/

lemma cntSevere_eq (t : List Char) : cntSevere t = (severe_matches t).length :=
  List.countP_eq_length_filter _ _

lemma cntHigh_eq (t : List Char) : cntHigh t = (high_matches t).length :=
  List.countP_eq_length_filter _ _

lemma cntModerate_eq (t : List Char) : cntModerate t = (moderate_matches t).length :=
  List.countP_eq_length_filter _ _

lemma cntProtective_eq (t : List Char) : cntProtective t = (protective_matches t).length :=
  List.countP_eq_length_filter _ _

lemma detect_crisis_severity (t : List Char) :
    (detect_crisis t).severity
      = (decideSeverity (severe_matches t) (high_matches t) (moderate_matches t)
          (riskClamped t)).1 := rfl

lemma detect_crisis_risk (t : List Char) :
    (detect_crisis t).risk_score = round2 (riskClamped t) := rfl

/-- Every clamped risk score is an integer multiple of `1/20`. -/
lemma riskClamped_div20 (t : List Char) : ∃ z : ℤ, riskClamped t = (z : ℚ) / 20 := by
  obtain ⟨w, hw⟩ : ∃ w : ℤ, riskRaw t = (w : ℚ) / 20 := by
    refine ⟨8 * ((severe_matches t).length : ℤ) + 5 * ((high_matches t).length : ℤ)
      + 2 * ((moderate_matches t).length : ℤ) - 3 * ((protective_matches t).length : ℤ), ?_⟩
    unfold riskRaw
    push_cast
    norm_num
    try ring
  unfold riskClamped
  rw [hw]
  rcases le_total ((w : ℚ) / 20) 0 with h | h
  · refine ⟨0, ?_⟩
    rw [min_eq_right (by linarith), max_eq_left h]
    norm_num
  · rcases le_total 1 ((w : ℚ) / 20) with h1 | h1
    · refine ⟨20, ?_⟩
      rw [min_eq_left h1, max_eq_right (by norm_num : (0:ℚ) ≤ 1)]
      norm_num
    · exact ⟨w, by rw [min_eq_right h1, max_eq_right h]⟩

/-- Rounding to two decimals does not change a crisis risk score. -/
lemma round2_riskClamped (t : List Char) : round2 (riskClamped t) = riskClamped t := by
  obtain ⟨z, hz⟩ := riskClamped_div20 t
  rw [hz, round2_int_div_twenty]

lemma detect_crisis_risk_eq (t : List Char) :
    (detect_crisis t).risk_score = riskClamped t := by
  rw [detect_crisis_risk, round2_riskClamped]

lemma decideSeverity_severe {s h m : List (List Char)} {r : ℚ} (hs : s ≠ []) :
    (decideSeverity s h m r).1 = Severity.severe := by
  unfold decideSeverity
  rw [if_pos hs]

lemma decideSeverity_high {s h m : List (List Char)} {r : ℚ} (hs : s = [])
    (hh : h ≠ [] ∨ r ≥ 0.6) : (decideSeverity s h m r).1 = Severity.high := by
  unfold decideSeverity
  rw [if_neg (by simp [hs]), if_pos hh]

lemma decideSeverity_moderate {s h m : List (List Char)} {r : ℚ} (hs : s = [])
    (hh : ¬(h ≠ [] ∨ r ≥ 0.6)) (hm : m ≠ [] ∨ r ≥ 0.3) :
    (decideSeverity s h m r).1 = Severity.moderate := by
  unfold decideSeverity
  rw [if_neg (by simp [hs]), if_neg hh, if_pos hm]

lemma decideSeverity_low {s h m : List (List Char)} {r : ℚ} (hs : s = [])
    (hh : ¬(h ≠ [] ∨ r ≥ 0.6)) (hm : ¬(m ≠ [] ∨ r ≥ 0.3)) (hr : r > 0) :
    (decideSeverity s h m r).1 = Severity.low := by
  unfold decideSeverity
  rw [if_neg (by simp [hs]), if_neg hh, if_neg hm, if_pos hr]

lemma decideSeverity_none {s h m : List (List Char)} {r : ℚ} (hs : s = [])
    (hh : ¬(h ≠ [] ∨ r ≥ 0.6)) (hm : ¬(m ≠ [] ∨ r ≥ 0.3)) (hr : ¬ r > 0) :
    (decideSeverity s h m r).1 = Severity.none := by
  unfold decideSeverity
  rw [if_neg (by simp [hs]), if_neg hh, if_neg hm, if_neg hr]

lemma length_ne_zero_iff {l : List (List Char)} : l.length ≠ 0 ↔ l ≠ [] := by
  simp [List.length_eq_zero]

/-- With no crisis keyword matched, the raw risk is non-positive, so the
clamped score is `0`. -/
lemma riskClamped_eq_zero_of_no_kw {t : List Char} (hs : severe_matches t = [])
    (hh : high_matches t = []) (hm : moderate_matches t = []) : riskClamped t = 0 := by
  have hraw : riskRaw t ≤ 0 := by
    unfold riskRaw
    rw [hs, hh, hm]
    have : (0:ℚ) ≤ ((protective_matches t).length : ℚ) * 0.15 := by positivity
    norm_num
    try linarith
  unfold riskClamped
  rw [min_eq_right (by linarith), max_eq_left hraw]

/-- Adding text on the right preserves every keyword match, so all match
counts are monotone under appending. -/
lemma cnt_append_mono (kws : List (List Char)) (t u : List Char) :
    kws.countP (fun kw => subMem kw (lowerStr t))
      ≤ kws.countP (fun kw => subMem kw (lowerStr (t ++ u))) := by
  apply List.countP_mono_left
  intro kw _ h
  simp only [subMem, decide_eq_true_eq] at h ⊢
  have hmap : lowerStr (t ++ u) = lowerStr t ++ lowerStr u := by
    simp [lowerStr]
  rw [hmap]
  exact h.trans (List.infix_append [] (lowerStr t) (lowerStr u))

/-! ### Claims C1-C4 and C9 about the lexical scorer -/

/-- C1: the severity returned by `detect_crisis` follows the first-match-wins
precedence: any severe keyword forces `severe` (regardless of protective
phrases); else a high-risk keyword or risk ≥ 0.6 gives `high`; else a
moderate-risk keyword or risk ≥ 0.3 gives `moderate`; else positive risk
gives `low`; else `none`. -/
theorem severity_precedence (t : List Char) :
    (cntSevere t ≠ 0 → (detect_crisis t).severity = Severity.severe) ∧
    (cntSevere t = 0 → (cntHigh t ≠ 0 ∨ (detect_crisis t).risk_score ≥ 0.6) →
      (detect_crisis t).severity = Severity.high) ∧
    (cntSevere t = 0 → cntHigh t = 0 → (detect_crisis t).risk_score < 0.6 →
      (cntModerate t ≠ 0 ∨ (detect_crisis t).risk_score ≥ 0.3) →
      (detect_crisis t).severity = Severity.moderate) ∧
    (cntSevere t = 0 → cntHigh t = 0 → cntModerate t = 0 →
      (detect_crisis t).risk_score < 0.3 → (detect_crisis t).risk_score > 0 →
      (detect_crisis t).severity = Severity.low) ∧
    (cntSevere t = 0 → cntHigh t = 0 → cntModerate t = 0 →
      (detect_crisis t).risk_score = 0 → (detect_crisis t).severity = Severity.none) := by
  have hrk := detect_crisis_risk_eq t
  have hsev := detect_crisis_severity t
  refine ⟨fun h1 => ?_, fun h0 hor => ?_, fun h0 h1 hlt hor => ?_,
    fun h0 h1 h2 hlt hpos => ?_, fun h0 h1 h2 hz => ?_⟩
  · rw [hsev]
    exact decideSeverity_severe (length_ne_zero_iff.mp (by rw [← cntSevere_eq]; exact h1))
  · rw [hsev]
    refine decideSeverity_high (List.length_eq_zero.mp (by rw [← cntSevere_eq]; exact h0)) ?_
    rcases hor with h | h
    · exact Or.inl (length_ne_zero_iff.mp (by rw [← cntHigh_eq]; exact h))
    · exact Or.inr (by rw [← hrk]; exact h)
  · rw [hsev]
    have hs0 : severe_matches t = [] :=
      List.length_eq_zero.mp (by rw [← cntSevere_eq]; exact h0)
    have hh0 : high_matches t = [] :=
      List.length_eq_zero.mp (by rw [← cntHigh_eq]; exact h1)
    refine decideSeverity_moderate hs0 ?_ ?_
    · push_neg
      exact ⟨by simp [hh0], by rw [← hrk]; exact hlt⟩
    · rcases hor with h | h
      · exact Or.inl (length_ne_zero_iff.mp (by rw [← cntModerate_eq]; exact h))
      · exact Or.inr (by rw [← hrk]; exact h)
  · rw [hsev]
    have hs0 : severe_matches t = [] :=
      List.length_eq_zero.mp (by rw [← cntSevere_eq]; exact h0)
    have hh0 : high_matches t = [] :=
      List.length_eq_zero.mp (by rw [← cntHigh_eq]; exact h1)
    have hm0 : moderate_matches t = [] :=
      List.length_eq_zero.mp (by rw [← cntModerate_eq]; exact h2)
    refine decideSeverity_low hs0 ?_ ?_ ?_
    · push_neg
      exact ⟨by simp [hh0], by rw [← hrk]; linarith⟩
    · push_neg
      exact ⟨by simp [hm0], by rw [← hrk]; exact hlt⟩
    · rw [← hrk]; exact hpos
  · rw [hsev]
    have hs0 : severe_matches t = [] :=
      List.length_eq_zero.mp (by rw [← cntSevere_eq]; exact h0)
    have hh0 : high_matches t = [] :=
      List.length_eq_zero.mp (by rw [← cntHigh_eq]; exact h1)
    have hm0 : moderate_matches t = [] :=
      List.length_eq_zero.mp (by rw [← cntModerate_eq]; exact h2)
    have hz0 : riskClamped t = 0 := by rw [← hrk]; exact hz
    refine decideSeverity_none hs0 ?_ ?_ ?_
    · push_neg
      exact ⟨by simp [hh0], by rw [hz0]; norm_num⟩
    · push_neg
      exact ⟨by simp [hm0], by rw [hz0]; norm_num⟩
    · rw [hz0]; norm_num

/-- Witness for C1 at the concrete text "suicide". -/
theorem severity_precedence_witness :
    cntSevere (sl "suicide") ≠ 0 ∧
    (detect_crisis (sl "suicide")).severity = Severity.severe :=
  ⟨by decide, (severity_precedence (sl "suicide")).1 (by decide)⟩

/-- C2: the risk score is the weighted keyword count
`0.4*|severe| + 0.25*|high| + 0.1*|moderate| - 0.15*|protective|` clamped to
[0,1], and a text with no keyword from any list scores severity `none` with
risk 0. -/
theorem risk_score_formula (t : List Char) :
    (detect_crisis t).risk_score
      = max 0 (min 1 ((cntSevere t : ℚ) * 0.4 + (cntHigh t : ℚ) * 0.25
          + (cntModerate t : ℚ) * 0.1 - (cntProtective t : ℚ) * 0.15)) ∧
    (cntSevere t = 0 → cntHigh t = 0 → cntModerate t = 0 → cntProtective t = 0 →
      (detect_crisis t).severity = Severity.none ∧ (detect_crisis t).risk_score = 0) := by
  constructor
  · rw [detect_crisis_risk_eq]
    unfold riskClamped riskRaw
    rw [cntSevere_eq, cntHigh_eq, cntModerate_eq, cntProtective_eq]
  · intro h0 h1 h2 _h3
    have hs0 : severe_matches t = [] :=
      List.length_eq_zero.mp (by rw [← cntSevere_eq]; exact h0)
    have hh0 : high_matches t = [] :=
      List.length_eq_zero.mp (by rw [← cntHigh_eq]; exact h1)
    have hm0 : moderate_matches t = [] :=
      List.length_eq_zero.mp (by rw [← cntModerate_eq]; exact h2)
    have hz : riskClamped t = 0 := riskClamped_eq_zero_of_no_kw hs0 hh0 hm0
    constructor
    · rw [detect_crisis_severity]
      refine decideSeverity_none hs0 ?_ ?_ ?_
      · push_neg
        exact ⟨by simp [hh0], by rw [hz]; norm_num⟩
      · push_neg
        exact ⟨by simp [hm0], by rw [hz]; norm_num⟩
      · rw [hz]; norm_num
    · rw [detect_crisis_risk_eq, hz]

/-- Witness for C2 at the keyword-free text "zzz". -/
theorem risk_score_formula_witness :
    (detect_crisis (sl "zzz")).severity = Severity.none ∧
    (detect_crisis (sl "zzz")).risk_score = 0 :=
  (risk_score_formula (sl "zzz")).2 (by decide) (by decide) (by decide) (by decide)

/-- C3 counterexample: "hopeless trying" (one high-risk keyword, two
protective phrases, clamped risk 0) has strictly higher severity than the
empty text (risk 0), and neither text contains a severe keyword, so severity
is not monotone in risk score when only severe keywords may override. -/
theorem severity_not_monotone_cex :
    (detect_crisis (sl "hopeless trying")).risk_score
        ≤ (detect_crisis (sl "")).risk_score ∧
    cntSevere (sl "hopeless trying") = 0 ∧ cntSevere (sl "") = 0 ∧
    ¬ sevRank (detect_crisis (sl "hopeless trying")).severity
        ≤ sevRank (detect_crisis (sl "")).severity := by
  have hs1 : severe_matches (sl "hopeless trying") = [] := by decide
  have hh1 : high_matches (sl "hopeless trying") = [sl "hopeless"] := by decide
  have hs2 : severe_matches (sl "") = [] := by decide
  have hh2 : high_matches (sl "") = [] := by decide
  have hm2 : moderate_matches (sl "") = [] := by decide
  have hr1 : riskClamped (sl "hopeless trying") = 0 := by
    have hm1 : moderate_matches (sl "hopeless trying") = [] := by decide
    have hp1 : protective_matches (sl "hopeless trying") = [sl "hope", sl "trying"] := by
      decide
    unfold riskClamped riskRaw
    rw [hs1, hh1, hm1, hp1]
    norm_num
  have hr2 : riskClamped (sl "") = 0 := riskClamped_eq_zero_of_no_kw hs2 hh2 hm2
  have hsev1 : (detect_crisis (sl "hopeless trying")).severity = Severity.high := by
    rw [detect_crisis_severity]
    exact decideSeverity_high hs1 (Or.inl (by rw [hh1]; simp))
  have hsev2 : (detect_crisis (sl "")).severity = Severity.none := by
    rw [detect_crisis_severity]
    refine decideSeverity_none hs2 ?_ ?_ ?_
    · push_neg
      exact ⟨by simp [hh2], by rw [hr2]; norm_num⟩
    · push_neg
      exact ⟨by simp [hm2], by rw [hr2]; norm_num⟩
    · rw [hr2]; norm_num
  refine ⟨?_, by decide, by decide, ?_⟩
  · rw [detect_crisis_risk_eq, detect_crisis_risk_eq, hr1, hr2]
  · rw [hsev1, hsev2]
    decide

/-- C3 amended: severity is monotone in risk score except where a severe,
high-risk or moderate-risk keyword is present in the lower-risk text (each
keyword class hard-overrides the band, not only the severe one). -/
theorem severity_monotone_amended (t1 t2 : List Char)
    (_h : (detect_crisis t1).risk_score ≤ (detect_crisis t2).risk_score) :
    sevRank (detect_crisis t1).severity ≤ sevRank (detect_crisis t2).severity ∨
    cntSevere t1 ≠ 0 ∨ cntHigh t1 ≠ 0 ∨ cntModerate t1 ≠ 0 := by
  by_cases hs : cntSevere t1 = 0
  · by_cases hh : cntHigh t1 = 0
    · by_cases hm : cntModerate t1 = 0
      · left
        have hs0 : severe_matches t1 = [] :=
          List.length_eq_zero.mp (by rw [← cntSevere_eq]; exact hs)
        have hh0 : high_matches t1 = [] :=
          List.length_eq_zero.mp (by rw [← cntHigh_eq]; exact hh)
        have hm0 : moderate_matches t1 = [] :=
          List.length_eq_zero.mp (by rw [← cntModerate_eq]; exact hm)
        have hz : riskClamped t1 = 0 := riskClamped_eq_zero_of_no_kw hs0 hh0 hm0
        have hn : (detect_crisis t1).severity = Severity.none := by
          rw [detect_crisis_severity]
          refine decideSeverity_none hs0 ?_ ?_ ?_
          · push_neg
            exact ⟨by simp [hh0], by rw [hz]; norm_num⟩
          · push_neg
            exact ⟨by simp [hm0], by rw [hz]; norm_num⟩
          · rw [hz]; norm_num
        rw [hn]
        exact Nat.zero_le _
      · exact Or.inr (Or.inr (Or.inr hm))
    · exact Or.inr (Or.inr (Or.inl hh))
  · exact Or.inr (Or.inl hs)

/-- Witness for the amended C3 at the pair of empty texts. -/
theorem severity_monotone_amended_witness :
    sevRank (detect_crisis (sl "")).severity ≤ sevRank (detect_crisis (sl "")).severity ∨
    cntSevere (sl "") ≠ 0 ∨ cntHigh (sl "") ≠ 0 ∨ cntModerate (sl "") ≠ 0 :=
  severity_monotone_amended (sl "") (sl "") (le_refl _)

/-- C4: anxiety and depression follow their formulas, are monotone
non-decreasing in the match counts, saturate at 1.0, and appending text (in
particular adding a keyword occurrence) never decreases either score. -/
theorem anxiety_depression_monotone :
    (∀ t, detect_anxiety t
        = round2 (min (min ((cntAnx t : ℚ) / 8) 0.8
            + min ((cntIntensity t : ℚ) / 10) 0.2) 1)) ∧
    (∀ t, detect_depression t = round2 (min ((cntDep t : ℚ) / 10) 1)) ∧
    (∀ m1 k1 m2 k2 : ℕ, m1 ≤ m2 → k1 ≤ k2 →
      anxietyFromCounts m1 k1 ≤ anxietyFromCounts m2 k2) ∧
    (∀ m1 m2 : ℕ, m1 ≤ m2 → depressionFromCount m1 ≤ depressionFromCount m2) ∧
    (∀ m k : ℕ, anxietyFromCounts m k ≤ 1) ∧
    (∀ m : ℕ, depressionFromCount m ≤ 1) ∧
    (∀ t u : List Char, detect_anxiety t ≤ detect_anxiety (t ++ u)
        ∧ detect_depression t ≤ detect_depression (t ++ u)) := by
  have hanx : ∀ m1 k1 m2 k2 : ℕ, m1 ≤ m2 → k1 ≤ k2 →
      anxietyFromCounts m1 k1 ≤ anxietyFromCounts m2 k2 := by
    intro m1 k1 m2 k2 hm hk
    unfold anxietyFromCounts
    apply round2_mono
    have hm' : (m1 : ℚ) ≤ (m2 : ℚ) := by exact_mod_cast hm
    have hk' : (k1 : ℚ) ≤ (k2 : ℚ) := by exact_mod_cast hk
    gcongr
  have hdep : ∀ m1 m2 : ℕ, m1 ≤ m2 → depressionFromCount m1 ≤ depressionFromCount m2 := by
    intro m1 m2 hm
    unfold depressionFromCount
    apply round2_mono
    have hm' : (m1 : ℚ) ≤ (m2 : ℚ) := by exact_mod_cast hm
    gcongr
  refine ⟨fun t => rfl, fun t => rfl, hanx, hdep, ?_, ?_, ?_⟩
  · intro m k
    exact round2_le_one (min_le_right _ _)
  · intro m
    exact round2_le_one (min_le_right _ _)
  · intro t u
    exact ⟨hanx _ _ _ _ (cnt_append_mono anxiety_keywords t u)
        (cnt_append_mono intensity_modifiers t u),
      hdep _ _ (cnt_append_mono depression_keywords t u)⟩

/-- Witness for C4 at concrete match counts. -/
theorem anxiety_depression_monotone_witness :
    anxietyFromCounts 1 0 ≤ anxietyFromCounts 2 0 ∧
    depressionFromCount 1 ≤ depressionFromCount 3 :=
  ⟨anxiety_depression_monotone.2.2.1 1 0 2 0 (by decide) (by decide),
   anxiety_depression_monotone.2.2.2.1 1 3 (by decide)⟩

/-- C9: the three scores exposed at the interface are their defining
formulas rounded to two decimals, hence each differs from the exact formula
by at most 0.005. -/
theorem rounded_interface (t : List Char) :
    (detect_crisis t).risk_score = round2 (riskClamped t) ∧
    |(detect_crisis t).risk_score - riskClamped t| ≤ 1/200 ∧
    detect_anxiety t
      = round2 (min (min ((cntAnx t : ℚ) / 8) 0.8
          + min ((cntIntensity t : ℚ) / 10) 0.2) 1) ∧
    |detect_anxiety t
      - min (min ((cntAnx t : ℚ) / 8) 0.8 + min ((cntIntensity t : ℚ) / 10) 0.2) 1|
        ≤ 1/200 ∧
    detect_depression t = round2 (min ((cntDep t : ℚ) / 10) 1) ∧
    |detect_depression t - min ((cntDep t : ℚ) / 10) 1| ≤ 1/200 := by
  refine ⟨detect_crisis_risk t, ?_, rfl, ?_, rfl, ?_⟩
  · rw [detect_crisis_risk]
    exact abs_round2_sub_le _
  · exact abs_round2_sub_le _
  · exact abs_round2_sub_le _

/-! ## RAG retrieval (backend/rag_agent.py, class MentalHealthRAGAgent) -/

/-- An activity record of the knowledge base. Each field is optional,
mirroring Python `dict.get` with a default. -/
structure Activity where
  name : Option (List Char)
  description : Option (List Char)
  steps : Option (List (List Char))
  duration_minutes : Option ℕ
  best_for : Option (List (List Char))
deriving DecidableEq

def defaultActivity : Activity :=
  { name := Option.none, description := Option.none, steps := Option.none,
    duration_minutes := Option.none, best_for := Option.none }

/-- A built index (rag_agent.py lines 24-40). `activities` is the flattened
knowledge base; `simFn` is the fixed external pipeline attached to the built
index — `cosine_similarity(vectorizer.transform([query]), activity_vectors)`,
a pure function of the query once fitting is done — returning one similarity
per activity. -/
structure RAGIndex where
  activities : List Activity
  simFn : List Char → List ℚ
  simLen : ∀ q, (simFn q).length = activities.length

/-- `MentalHealthRAGAgent._describe_mood` (lines 62-82). -/
def describe_mood (mood_score anxiety_score : ℚ) : List Char :=
  let d1 :=
    if mood_score < 0.3 then sl "depression low_energy sadness"
    else if mood_score < 0.5 then sl "stress overwhelm difficulty"
    else if mood_score < 0.7 then sl "moderate_mood neutral"
    else sl "positive_mood uplifted"
  let d2 :=
    if anxiety_score > 0.7 then sl "high_anxiety panic worry"
    else if anxiety_score > 0.4 then sl "stress tension nervousness"
    else sl "calm relaxed"
  d1 ++ sl " " ++ d2

/-- Line 48: `query = f"{transcript} {mood_description}"`. -/
def queryOf (transcript : List Char) (mood_score anxiety_score : ℚ) : List Char :=
  transcript ++ sl " " ++ describe_mood mood_score anxiety_score

/-- Similarity of activity `i` (0 for an out-of-range index). -/
def simAt (sims : List ℚ) (i : ℕ) : ℚ := sims.getD i 0

/-- The ascending argsort order: by similarity, ties by original index
(the stable model of `np.argsort`). -/
def argRel (sims : List ℚ) (i j : ℕ) : Prop :=
  simAt sims i < simAt sims j ∨ (simAt sims i = simAt sims j ∧ i ≤ j)

instance (sims : List ℚ) : DecidableRel (argRel sims) := fun i j => by
  unfold argRel
  infer_instance

/-- The reversed argsort order: descending similarity, ties by descending
original index. -/
def argRelFlip (sims : List ℚ) (i j : ℕ) : Prop := argRel sims j i

instance (sims : List ℚ) : DecidableRel (argRelFlip sims) := fun i j => by
  unfold argRelFlip
  infer_instance

instance (sims : List ℚ) : IsTotal ℕ (argRel sims) := by
  constructor
  intro i j
  unfold argRel
  rcases lt_trichotomy (simAt sims i) (simAt sims j) with h | h | h
  · exact Or.inl (Or.inl h)
  · rcases le_total i j with hij | hij
    · exact Or.inl (Or.inr ⟨h, hij⟩)
    · exact Or.inr (Or.inr ⟨h.symm, hij⟩)
  · exact Or.inr (Or.inl h)

instance (sims : List ℚ) : IsTrans ℕ (argRel sims) := by
  constructor
  intro a b c hab hbc
  unfold argRel at *
  rcases hab with h1 | ⟨h1, h1'⟩ <;> rcases hbc with h2 | ⟨h2, h2'⟩
  · exact Or.inl (h1.trans h2)
  · exact Or.inl (h2 ▸ h1)
  · exact Or.inl (h1 ▸ h2)
  · exact Or.inr ⟨h1.trans h2, h1'.trans h2'⟩

instance (sims : List ℚ) : IsAntisymm ℕ (argRel sims) := by
  constructor
  intro a b hab hba
  rcases hab with h1 | ⟨h1, h1'⟩ <;> rcases hba with h2 | ⟨h2, h2'⟩
  · exact absurd (h1.trans h2) (lt_irrefl _)
  · exact absurd h1 (h2 ▸ lt_irrefl _)
  · exact absurd h2 (h1 ▸ lt_irrefl _)
  · omega

instance (sims : List ℚ) : IsTotal ℕ (argRelFlip sims) := by
  constructor
  intro i j
  exact (IsTotal.total (r := argRel sims) j i)

instance (sims : List ℚ) : IsTrans ℕ (argRelFlip sims) := by
  constructor
  intro a b c hab hbc
  exact IsTrans.trans (r := argRel sims) c b a hbc hab

instance (sims : List ℚ) : IsAntisymm ℕ (argRelFlip sims) := by
  constructor
  intro a b hab hba
  exact IsAntisymm.antisymm (r := argRel sims) a b hba hab

/-- `np.argsort(similarities)` (line 57), modelled as the stable ascending
argsort (deterministic; numpy's sort is insertion sort on small arrays). -/
def argsortAsc (sims : List ℚ) : List ℕ :=
  List.insertionSort (argRel sims) (List.range sims.length)

/-- Python `a[-k:]`: the whole list when `k = 0`, else the last `k`
elements. -/
def pyTailSlice {α : Type} (l : List α) (k : ℕ) : List α :=
  if k = 0 then l else l.drop (l.length - k)

/-- `MentalHealthRAGAgent.retrieve_relevant_activities` (lines 42-60):
`top_indices = np.argsort(similarities)[-top_k:][::-1]` followed by the
activity lookup. -/
def retrieve_relevant_activities (idx : RAGIndex) (transcript : List Char)
    (mood_score anxiety_score : ℚ) (top_k : ℕ) : List Activity :=
  let sims := idx.simFn (queryOf transcript mood_score anxiety_score)
  let top_indices := (pyTailSlice (argsortAsc sims) top_k).reverse
  top_indices.map (fun i => idx.activities.getD i defaultActivity)

/-- The ranking the claim describes: all activities sorted by similarity
descending with ties broken by ascending original index (a stable descending
sort), truncated to the first `top_k`. -/
def rankClaim (sims : List ℚ) (i j : ℕ) : Prop :=
  simAt sims j < simAt sims i ∨ (simAt sims i = simAt sims j ∧ i ≤ j)

instance (sims : List ℚ) : DecidableRel (rankClaim sims) := fun i j => by
  unfold rankClaim
  infer_instance

/-- Retrieval as claim C5 states it (descending similarity, ties by
ascending original index, first `top_k`). -/
def retrieveSpecClaim (idx : RAGIndex) (transcript : List Char)
    (mood_score anxiety_score : ℚ) (top_k : ℕ) : List Activity :=
  ((List.insertionSort (rankClaim (idx.simFn (queryOf transcript mood_score anxiety_score)))
      (List.range idx.activities.length)).take top_k).map
    (fun i => idx.activities.getD i defaultActivity)

/-- Retrieval as amended: descending similarity, ties by *descending*
original index, first `top_k`. -/
def retrieveSpecAmended (idx : RAGIndex) (transcript : List Char)
    (mood_score anxiety_score : ℚ) (top_k : ℕ) : List Activity :=
  ((List.insertionSort (argRelFlip (idx.simFn (queryOf transcript mood_score anxiety_score)))
      (List.range idx.activities.length)).take top_k).map
    (fun i => idx.activities.getD i defaultActivity)

/-- Reversing the stable ascending argsort yields the sort by the flipped
order. -/
lemma insertionSort_reverse_eq (sims : List ℚ) (l : List ℕ) :
    (List.insertionSort (argRel sims) l).reverse
      = List.insertionSort (argRelFlip sims) l := by
  apply List.eq_of_perm_of_sorted (r := argRelFlip sims)
  · exact ((List.reverse_perm _).trans (List.perm_insertionSort _ l)).trans
      (List.perm_insertionSort _ l).symm
  · unfold List.Sorted
    rw [List.pairwise_reverse]
    have h := List.sorted_insertionSort (argRel sims) l
    exact h
  · exact List.sorted_insertionSort _ l

lemma reverse_pyTailSlice {α : Type} (l : List α) {k : ℕ} (hk : 1 ≤ k) :
    (pyTailSlice l k).reverse = l.reverse.take k := by
  unfold pyTailSlice
  rw [if_neg (by omega)]
  exact (List.take_reverse).symm

/-! ### Claim C5 about retrieval -/

/-- C5 amended: retrieval is deterministic and returns the first `top_k`
activities ranked by similarity descending with ties broken by *descending*
original index (the code reverses a stable ascending argsort), for any
`top_k ≥ 1`. -/
theorem retrieve_ranking_amended (idx : RAGIndex) (t : List Char) (m a : ℚ)
    (k : ℕ) (hk : 1 ≤ k) :
    retrieve_relevant_activities idx t m a k = retrieveSpecAmended idx t m a k := by
  simp only [retrieve_relevant_activities, retrieveSpecAmended, argsortAsc]
  have hlen := idx.simLen (queryOf t m a)
  rw [hlen, reverse_pyTailSlice _ hk, insertionSort_reverse_eq, List.map_take]

/-- Index with two activities whose vectors coincide, so both cosine
similarities are equal: a genuine tie. -/
def actA : Activity :=
  { name := some (sl "a0"), description := Option.none, steps := Option.none,
    duration_minutes := Option.none, best_for := Option.none }

def actB : Activity :=
  { name := some (sl "a1"), description := Option.none, steps := Option.none,
    duration_minutes := Option.none, best_for := Option.none }

def idxTie : RAGIndex :=
  { activities := [actA, actB], simFn := fun _ => [1, 1], simLen := fun _ => rfl }

/-- C5 counterexample: on a two-activity index with tied similarities and
`top_k = 2`, the code returns the activities in *reverse* index order, not
the claimed stable (ascending-index) order. -/
theorem retrieve_tiebreak_cex :
    retrieve_relevant_activities idxTie (sl "") 0 0 2 = [actB, actA] ∧
    retrieveSpecClaim idxTie (sl "") 0 0 2 = [actA, actB] ∧
    retrieve_relevant_activities idxTie (sl "") 0 0 2
      ≠ retrieveSpecClaim idxTie (sl "") 0 0 2 := by
  decide

/-- Witness for the amended C5 at the tie index. -/
theorem retrieve_ranking_amended_witness :
    retrieve_relevant_activities idxTie (sl "") 0 0 2
      = retrieveSpecAmended idxTie (sl "") 0 0 2 :=
  retrieve_ranking_amended idxTie (sl "") 0 0 2 (by decide)

/-! ## Plan generation (backend/rag_agent.py, lines 84-257) -/

/-- JSON values, as produced by `json.loads`. -/
inductive Json where
  | null : Json
  | jbool : Bool → Json
  | jnum : ℚ → Json
  | jstr : List Char → Json
  | jarr : List Json → Json
  | jobj : List (List Char × Json) → Json

/-- Python `d.get(key)` on a parsed JSON value: first matching key of an
object, `None` otherwise. -/
def jget : Json → List Char → Option Json
  | Json.jobj fields, key => fields.lookup key
  | _, _ => Option.none

/-- Python `isinstance(x, list)` on an optional JSON value. -/
def isJsonArray : Option Json → Bool
  | some (Json.jarr _) => true
  | _ => false

/-- Length of the array stored under `key`, when there is one. -/
def arrLenAt (j : Json) (key : List Char) : Option ℕ :=
  match jget j key with
  | some (Json.jarr l) => some l.length
  | _ => Option.none

/-- Outcome of one generative-model call as `_generate_with_llm` observes it
after the external boundary: either some exception was raised
(`generate_content`, `response.text`, or re-raised `json.JSONDecodeError`),
or the fence-stripped response text parsed to a JSON value. We fold
`json.loads` into the boundary: `parsed Option.none` is a parse failure,
which the code re-raises. -/
inductive GenOutcome where
  | exn : GenOutcome
  | parsed : Option Json → GenOutcome

/-- `MentalHealthRAGAgent._generate_with_llm` (lines 116-184): returns the
parsed plan when both `immediate_actions` and `activities` are lists, and
raises (modelled as `Except.error`) on any exception, parse failure or
failed validation. -/
def generate_with_llm (o : GenOutcome) : Except Unit Json :=
  match o with
  | GenOutcome.exn => Except.error ()
  | GenOutcome.parsed Option.none => Except.error ()
  | GenOutcome.parsed (some plan) =>
    if isJsonArray (jget plan (sl "immediate_actions"))
        && isJsonArray (jget plan (sl "activities")) then Except.ok plan
    else Except.error ()

/-- Lines 219-232: rendering of one retrieved activity in the fallback
plan. -/
def renderActivity (act : Activity) : List Char :=
  let name := act.name.getD (sl "Activity")
  let desc := act.description.getD []
  let duration := act.duration_minutes.getD 5
  if desc ≠ [] then
    name ++ sl ": " ++ desc ++ sl " (" ++ (Nat.repr duration).toList ++ sl " minutes)"
  else
    let steps := act.steps.getD []
    if steps ≠ [] then
      name ++ sl ": " ++ List.intercalate (sl ", ") (steps.take 2)
        ++ sl " (" ++ (Nat.repr duration).toList ++ sl " minutes)"
    else name ++ sl " (" ++ (Nat.repr duration).toList ++ sl " minutes)"

/-- Lines 244-249: the generic 4-item activity list used when nothing was
retrieved. -/
def genericActivities : List (List Char) :=
  [sl "Take 5 slow, deep breaths",
   sl "Drink a glass of water",
   sl "Step outside for fresh air if possible",
   sl "Write down one thing you\x27re grateful for"]

/-- `MentalHealthRAGAgent._get_fallback_plan` (lines 186-257). -/
def get_fallback_plan (mood_score anxiety_score : ℚ) (crisis_flag : Bool)
    (activities : List Activity) : Json :=
  let immediate_actions : List (List Char) :=
    if crisis_flag = true ∨ mood_score < 0.2 then
      [sl "Take slow, deep breaths. Inhale for 4 counts, hold for 4, exhale for 4.",
       sl "If you\x27re feeling overwhelmed, reach out to someone you trust right now.",
       sl "Remember: This feeling will pass. You\x27ve gotten through difficult moments before."]
    else if mood_score < 0.4 then
      [sl "Start with a simple breathing exercise to calm your nervous system.",
       sl "Do one small, manageable thing right now - even just washing your face.",
       sl "Be gentle with yourself. It\x27s okay to not be okay sometimes."]
    else if mood_score < 0.6 then
      [sl "Take a moment to notice your breathing and relax your shoulders.",
       sl "Consider doing a quick 5-minute activity to shift your energy.",
       sl "Stay hydrated and make sure you\x27ve eaten something today."]
    else
      [sl "You\x27re doing well! Keep this positive momentum going.",
       sl "Consider an activity that brings you joy or helps you relax.",
       sl "Take a moment to appreciate how you\x27re feeling right now."]
  let activity_descriptions := (activities.take 4).map renderActivity
  let music_desc :=
    if anxiety_score > 0.6 then
      sl "Calming, slow-tempo music can help reduce anxiety and promote relaxation."
    else if mood_score < 0.4 then
      sl "Gentle, uplifting music can help improve your mood and provide comfort."
    else
      sl "Music that matches your current mood can be therapeutic and grounding."
  Json.jobj
    [(sl "immediate_actions", Json.jarr (immediate_actions.map Json.jstr)),
     (sl "activities", Json.jarr
       ((if activity_descriptions ≠ [] then activity_descriptions
         else genericActivities).map Json.jstr)),
     (sl "music_recommendation", Json.jobj
       [(sl "needed", Json.jbool true),
        (sl "description", Json.jstr music_desc)])]

/-- The exception a Python attribute read raises when the instance
attribute was never assigned. -/
inductive PyError where
  | attributeError : PyError
deriving DecidableEq

/-- `MentalHealthRAGAgent.generate_plan` (lines 84-114). Nothing in the
repository ever assigns `self.model`: `__init__` (lines 10-40) sets only
`knowledge_base`, `activities`, `vectorizer`, `activity_texts` and
`activity_vectors`, and no other code touches the attribute. So after the
retrieval of lines 91-95 succeeds, the truthiness test `if self.model:` at
line 98 — outside the `try` block — raises `AttributeError` on every call,
and the exception propagates to the caller. The retrieval result is bound
first to mirror the execution order up to the raise. -/
def generate_plan (idx : RAGIndex) (transcript : List Char)
    (mood_score anxiety_score : ℚ) (crisis_flag : Bool) : Except PyError Json :=
  let _relevant_activities :=
    retrieve_relevant_activities idx transcript mood_score anxiety_score 8
  Except.error PyError.attributeError

/-! ### Claims C6, C7 and C10 about plan generation -/

lemma jget_cons_self {k : List Char} {v : Json} {fs : List (List Char × Json)} :
    jget (Json.jobj ((k, v) :: fs)) k = some v := by
  simp [jget, List.lookup]

lemma jget_cons_of_ne {k k' : List Char} {v : Json} {fs : List (List Char × Json)}
    (h : (k == k') = false) :
    jget (Json.jobj ((k', v) :: fs)) k = jget (Json.jobj fs) k := by
  simp [jget, List.lookup, h]

/-- Empty index (used to exercise `generate_plan` on concrete inputs). -/
def idxEmpty : RAGIndex :=
  { activities := [], simFn := fun _ => [], simLen := fun _ => rfl }

/-- An LLM response that passes validation (both fields are arrays) but has
the wrong counts: no immediate actions and no activities. -/
def badLLMPlan : Json :=
  Json.jobj [(sl "immediate_actions", Json.jarr []), (sl "activities", Json.jarr [])]

/-- An LLM response with the documented shape. -/
def goodLLMPlan : Json :=
  Json.jobj
    [(sl "immediate_actions",
      Json.jarr [Json.jstr (sl "a"), Json.jstr (sl "b"), Json.jstr (sl "c")]),
     (sl "activities", Json.jarr [Json.jstr (sl "d")])]

/-- C6 counterexample: on this concrete input `generate_plan` returns no
plan at all — reading the never-assigned `self.model` raises
`AttributeError` — so it is false that the plan returned by compose
contains exactly 3 `immediate_actions`: no plan is returned. -/
theorem plan_shape_cex :
    generate_plan idxEmpty (sl "") 0 0 false = Except.error PyError.attributeError ∧
    ¬∃ p, generate_plan idxEmpty (sl "") 0 0 false = Except.ok p ∧
      arrLenAt p (sl "immediate_actions") = some 3 := by
  refine ⟨rfl, ?_⟩
  rintro ⟨p, hp, -⟩
  exact Except.noConfusion hp

/-- C6 amended: `generate_plan` itself never returns a plan (it raises
`AttributeError` on every call because `self.model` is never assigned). Of
the two generation paths it orchestrates: the fallback template always
produces exactly 3 `immediate_actions` and between 1 and 4 `activities`,
while the LLM path validates only that both fields are arrays, so a
validated LLM plan's counts are whatever the model produced — for instance
a response with empty arrays passes validation with 0 immediate actions. -/
theorem plan_shape_amended :
    (∀ (idx : RAGIndex) (t : List Char) (m a : ℚ) (c : Bool),
      generate_plan idx t m a c = Except.error PyError.attributeError) ∧
    (∀ (m a : ℚ) (c : Bool) (acts : List Activity),
      arrLenAt (get_fallback_plan m a c acts) (sl "immediate_actions") = some 3 ∧
      ∃ n, arrLenAt (get_fallback_plan m a c acts) (sl "activities") = some n ∧
        1 ≤ n ∧ n ≤ 4) ∧
    (∀ (o : GenOutcome) (p : Json), generate_with_llm o = Except.ok p →
      isJsonArray (jget p (sl "immediate_actions")) = true ∧
      isJsonArray (jget p (sl "activities")) = true) ∧
    (generate_with_llm (GenOutcome.parsed (some badLLMPlan)) = Except.ok badLLMPlan ∧
      arrLenAt badLLMPlan (sl "immediate_actions") = some 0) := by
  refine ⟨fun idx t m a c => rfl, ?_, ?_, rfl, rfl⟩
  · intro m a c acts
    constructor
    · simp only [get_fallback_plan, arrLenAt, jget_cons_self]
      split_ifs <;> simp
    · simp only [get_fallback_plan, arrLenAt]
      rw [jget_cons_of_ne (by decide), jget_cons_self]
      by_cases hd : (acts.take 4).map renderActivity = []
      · rw [if_neg (by simp [hd])]
        exact ⟨4, by simp [genericActivities], by norm_num, by norm_num⟩
      · rw [if_pos hd]
        refine ⟨((acts.take 4).map renderActivity).length, by simp, ?_, ?_⟩
        · have := List.length_pos.mpr hd
          omega
        · simp only [List.length_map, List.length_take]
          exact Nat.min_le_left 4 _
  · intro o p h
    cases o with
    | exn => exact absurd h (by simp [generate_with_llm])
    | parsed jo =>
      cases jo with
      | none => exact absurd h (by simp [generate_with_llm])
      | some j =>
        simp only [generate_with_llm] at h
        split at h
        · cases h
          rename_i hcond
          exact ⟨(Bool.and_eq_true_iff.mp hcond).1, (Bool.and_eq_true_iff.mp hcond).2⟩
        · exact absurd h (by simp)

/-- Witness for the amended C6 at concrete inputs. -/
theorem plan_shape_amended_witness :
    (arrLenAt (get_fallback_plan 1 0 false []) (sl "immediate_actions") = some 3 ∧
      ∃ n, arrLenAt (get_fallback_plan 1 0 false []) (sl "activities") = some n ∧
        1 ≤ n ∧ n ≤ 4) ∧
    (isJsonArray (jget goodLLMPlan (sl "immediate_actions")) = true ∧
      isJsonArray (jget goodLLMPlan (sl "activities")) = true) :=
  ⟨plan_shape_amended.2.1 1 0 false [],
   plan_shape_amended.2.2.1 (GenOutcome.parsed (some goodLLMPlan)) goodLLMPlan rfl⟩

/-- C7 (code bug): the claim — every LLM failure is recovered via the
deterministic fallback, and the only paths out of `generate_plan` are the
validated LLM plan or the fallback plan — matches the code's evident intent
(the try/except routing to `_get_fallback_plan` and the `else` branch for
the no-client case), but `self.model` is never assigned anywhere in the
repository, so the truthiness test at line 98 raises `AttributeError`
outside the `try` on every call: the failure always propagates to the
caller and neither plan is ever returned. -/
theorem generate_plan_raises (idx : RAGIndex) (t : List Char) (m a : ℚ) (c : Bool) :
    generate_plan idx t m a c = Except.error PyError.attributeError := rfl

/-- C10: the deterministic fallback plan always marks the music
recommendation as needed, for every input. -/
theorem fallback_music_needed (m a : ℚ) (c : Bool) (acts : List Activity) :
    (jget (get_fallback_plan m a c acts) (sl "music_recommendation")).bind
      (fun j => jget j (sl "needed")) = some (Json.jbool true) := rfl

/-! ## Music provider (backend/spotify_service.py, class SpotifyService) -/

/-- Outcome of one HTTP call to the provider: an exception, a non-200
status, or a 200 response carrying a payload. -/
inductive ApiOutcome (α : Type) where
  | exn : ApiOutcome α
  | badStatus : ApiOutcome α
  | ok : α → ApiOutcome α
deriving DecidableEq

/-- The service's environment and external behaviour as one call observes
it: credentials from the environment, the cached token slot (initially
`None`), and the responses of the three provider endpoints. For the search
endpoint, `ok (some url)` is a 200 response with at least one playlist item,
`ok Option.none` a 200 response with an empty item list. -/
structure SpotifyState where
  client_id : Option (List Char)
  client_secret : Option (List Char)
  access_token : Option (List Char)
  authOutcome : ApiOutcome (List Char)
  searchOutcome : ApiOutcome (Option (List Char))
  recsOutcome : ApiOutcome (List Json)

/-- `SpotifyService.get_access_token` (lines 12-42): cached token, else
`None` when credentials are missing, else the token endpoint's outcome. -/
def get_access_token (s : SpotifyState) : Option (List Char) :=
  match s.access_token with
  | some t => some t
  | Option.none =>
    if s.client_id = Option.none ∨ s.client_secret = Option.none then Option.none
    else
      match s.authOutcome with
      | ApiOutcome.ok tok => some tok
      | _ => Option.none

/-- Lines 50-58: the search query selected from the mood band (parameterizes
the external search call only). -/
def searchQueryOf (mood_score anxiety_score : ℚ) : List Char :=
  if anxiety_score > 0.6 then sl "peaceful calming meditation ambient sleep"
  else if mood_score < 0.3 then sl "uplifting hopeful positive encouraging happy"
  else if mood_score < 0.5 then sl "relaxing chill lo-fi focus study"
  else sl "feel good happy upbeat positive vibes"

/-- `SpotifyService._get_fallback_playlist` (lines 87-95). -/
def get_fallback_playlist (mood_score : ℚ) : List Char :=
  if mood_score < 0.5 then
    sl "https://open.spotify.com/playlist/37i9dQZF1DWZqd5JICZI0u"
  else
    sl "https://open.spotify.com/playlist/37i9dQZF1DX3rxVfCUTxSu"

/-- `SpotifyService.get_playlist` (lines 44-85): `None` without a token; the
found URL on a 200 response with items; the mood-band fallback URL on a 200
response without items, a non-200 status, or an exception. -/
def get_playlist (s : SpotifyState) (mood_score anxiety_score : ℚ) :
    Option (List Char) :=
  match get_access_token s with
  | Option.none => Option.none
  | some _ =>
    match s.searchOutcome with
    | ApiOutcome.ok (some url) => some url
    | ApiOutcome.ok Option.none => some (get_fallback_playlist mood_score)
    | ApiOutcome.badStatus => some (get_fallback_playlist mood_score)
    | ApiOutcome.exn => some (get_fallback_playlist mood_score)

/-- `SpotifyService._get_fallback_tracks` (lines 145-170): the three static
mock tracks. -/
def get_fallback_tracks : List Json :=
  [Json.jobj
    [(sl "id", Json.jstr (sl "1")),
     (sl "name", Json.jstr (sl "Weightless")),
     (sl "artists", Json.jarr [Json.jobj [(sl "name", Json.jstr (sl "Marconi Union"))]]),
     (sl "album", Json.jobj [(sl "images", Json.jarr [Json.jobj
       [(sl "url", Json.jstr
         (sl "https://i.scdn.co/image/ab67616d0000b2733d92b2ad5222b27d49669046"))]])]),
     (sl "external_urls", Json.jobj [(sl "spotify", Json.jstr
       (sl "https://open.spotify.com/track/6kLCHFM39wkFjOuyPGLGeQ"))])],
   Json.jobj
    [(sl "id", Json.jstr (sl "2")),
     (sl "name", Json.jstr (sl "Clair de Lune")),
     (sl "artists", Json.jarr [Json.jobj [(sl "name", Json.jstr (sl "Claude Debussy"))]]),
     (sl "album", Json.jobj [(sl "images", Json.jarr [Json.jobj
       [(sl "url", Json.jstr
         (sl "https://i.scdn.co/image/ab67616d0000b273955486525fa502e86e42220e"))]])]),
     (sl "external_urls", Json.jobj [(sl "spotify", Json.jstr
       (sl "https://open.spotify.com/track/6N7JzjzDikITTLQAxpYLIT"))])],
   Json.jobj
    [(sl "id", Json.jstr (sl "3")),
     (sl "name", Json.jstr (sl "River Flows In You")),
     (sl "artists", Json.jarr [Json.jobj [(sl "name", Json.jstr (sl "Yiruma"))]]),
     (sl "album", Json.jobj [(sl "images", Json.jarr [Json.jobj
       [(sl "url", Json.jstr
         (sl "https://i.scdn.co/image/ab67616d0000b273d6d48b102e57e5e0636d30df"))]])]),
     (sl "external_urls", Json.jobj [(sl "spotify", Json.jstr
       (sl "https://open.spotify.com/track/2agBDIr9MYDU4QKLMoAE0g"))])]]

/-- `SpotifyService.get_recommendations` (lines 97-143): the mock tracks
without a token; the provider's track list on a 200 response; the mock
tracks on a non-200 status or an exception. -/
def get_recommendations (s : SpotifyState) (mood_score anxiety_score : ℚ) :
    List Json :=
  match get_access_token s with
  | Option.none => get_fallback_tracks
  | some _ =>
    match s.recsOutcome with
    | ApiOutcome.ok tracks => tracks
    | ApiOutcome.badStatus => get_fallback_tracks
    | ApiOutcome.exn => get_fallback_tracks

/-! ### Claim C8 about the music fallbacks -/

/-- Environment with no credentials at all. -/
def stateNoCreds : SpotifyState :=
  { client_id := Option.none, client_secret := Option.none,
    access_token := Option.none, authOutcome := ApiOutcome.exn,
    searchOutcome := ApiOutcome.exn, recsOutcome := ApiOutcome.exn }

/-- Environment with credentials and a token, but failing provider APIs. -/
def stateApiDown : SpotifyState :=
  { client_id := some (sl "id"), client_secret := some (sl "secret"),
    access_token := Option.none, authOutcome := ApiOutcome.ok (sl "tok"),
    searchOutcome := ApiOutcome.exn, recsOutcome := ApiOutcome.badStatus }

/-- C8 counterexample: with credentials absent, `get_playlist` returns
`None` — not one of the two static fallback playlist URLs the claim
promises. -/
theorem spotify_fallback_cex :
    get_playlist stateNoCreds (3/10) (1/10) = Option.none ∧
    get_playlist stateNoCreds (3/10) (1/10)
      ≠ some (sl "https://open.spotify.com/playlist/37i9dQZF1DWZqd5JICZI0u") ∧
    get_playlist stateNoCreds (3/10) (1/10)
      ≠ some (sl "https://open.spotify.com/playlist/37i9dQZF1DX3rxVfCUTxSu") := by
  refine ⟨rfl, ?_, ?_⟩ <;> intro h <;> exact Option.noConfusion h

/-- C8 amended: when no token is available, `get_recommendations` returns
the three static mock tracks but `get_playlist` returns `None`; when a token
was obtained and the provider API call fails (exception or non-200 status),
`get_playlist` returns the mood-band static URL and `get_recommendations`
the three mock tracks. -/
theorem spotify_fallback_amended (s : SpotifyState) (m a : ℚ) :
    (get_access_token s = Option.none →
      get_playlist s m a = Option.none ∧
      get_recommendations s m a = get_fallback_tracks) ∧
    (get_access_token s ≠ Option.none →
      s.searchOutcome = ApiOutcome.exn ∨ s.searchOutcome = ApiOutcome.badStatus →
      get_playlist s m a = some (get_fallback_playlist m)) ∧
    (get_access_token s ≠ Option.none →
      s.recsOutcome = ApiOutcome.exn ∨ s.recsOutcome = ApiOutcome.badStatus →
      get_recommendations s m a = get_fallback_tracks) ∧
    get_fallback_tracks.length = 3 ∧
    (get_fallback_playlist m
        = sl "https://open.spotify.com/playlist/37i9dQZF1DWZqd5JICZI0u" ∨
     get_fallback_playlist m
        = sl "https://open.spotify.com/playlist/37i9dQZF1DX3rxVfCUTxSu") := by
  refine ⟨?_, ?_, ?_, rfl, ?_⟩
  · intro h
    unfold get_playlist get_recommendations
    rw [h]
    exact ⟨rfl, rfl⟩
  · intro h hfail
    unfold get_playlist
    obtain ⟨tok, htok⟩ := Option.ne_none_iff_exists'.mp h
    rw [htok]
    rcases hfail with hf | hf <;> rw [hf]
  · intro h hfail
    unfold get_recommendations
    obtain ⟨tok, htok⟩ := Option.ne_none_iff_exists'.mp h
    rw [htok]
    rcases hfail with hf | hf <;> rw [hf]
  · unfold get_fallback_playlist
    split_ifs
    · exact Or.inl rfl
    · exact Or.inr rfl

/-- Witness for the amended C8: API failures with a valid token, and the
no-credentials case. -/
theorem spotify_fallback_amended_witness :
    (get_playlist stateNoCreds (3/10) (1/10) = Option.none ∧
      get_recommendations stateNoCreds (3/10) (1/10) = get_fallback_tracks) ∧
    get_playlist stateApiDown (3/10) (1/10) = some (get_fallback_playlist (3/10)) ∧
    get_recommendations stateApiDown (3/10) (1/10) = get_fallback_tracks :=
  ⟨(spotify_fallback_amended stateNoCreds (3/10) (1/10)).1 rfl,
   (spotify_fallback_amended stateApiDown (3/10) (1/10)).2.1
     (fun h => Option.noConfusion h) (Or.inl rfl),
   (spotify_fallback_amended stateApiDown (3/10) (1/10)).2.2.1
     (fun h => Option.noConfusion h) (Or.inr rfl)⟩

end NeuroSync
